import Mathlib

/-!
Verification of the neglnn core: the abstract `Layer` unit
(`neglnn/layers/layer.py`) and the fan-in initializer
(`neglnn/initializers/xavier.py`).

Shallow embedding conventions:

* numpy arrays are modelled by `NDArray R`: a shape (list of dimension
  sizes) together with an entry function from multi-indices to a scalar
  type `R`.  The layer machinery never inspects entries, so it is generic
  in `R`; the Xavier theorem instantiates `R := ℝ`.
* Python exceptions are modelled by `Except PyError`.  A method body that
  is just `raise NotImplementedError` becomes the constant
  `Except.error PyError.notImplementedError`; reading the missing
  `self.optimizers` attribute (never created before `on_optimizer` runs)
  becomes `Except.error (PyError.attributeError PyAttr.optimizers)`.
* An optimizer instance is opaque to `layer.py`: it is a value of an
  abstract state type `σ` whose methods are supplied by an
  `OptimizerSpec σ R` record, and `provider()` (which may return a
  different fresh instance on every call) is determinized as a function
  `provider : Nat → σ` of the call index.
* The side effects `layer.py` performs on optimizers are captured both by
  the returned optimizer states and by an explicit list of `Event`s, in
  call order, so that call ordering claims become statements about traces.
* Concrete trainable layers override `parameters()` with a pure accessor
  of the layer's stored arrays; this override is modelled by the `params`
  field of `Layer`, which `on_optimizer` and `optimize` read exactly where
  the Python methods call `self.parameters()`.  The base-class bodies of
  `parameters`, `forward`, `backward` and `on_initializer` (which raise)
  are modelled separately as the error-returning functions below.
-/

/-- Shape of a numpy array: the tuple of its dimension sizes. -/
abbrev Shape := List Nat

/-- Attribute names that appear in the attribute accesses modelled here. -/
inductive PyAttr where
  | optimizers
  | current_layer_input_shape
deriving DecidableEq

/-- Python exceptions raised by the modelled code. -/
inductive PyError where
  | notImplementedError
  | attributeError (attr : PyAttr)
deriving DecidableEq

/-- Modelled from the spec: the shared training state
(`neglnn/network/state.py`, not under `src/`) holds the shape of the
tensor currently entering the layer being initialized,
`current_layer_input_shape`; whether it is set before the first
initializer runs is the spec's open question, hence the `Option`. -/
structure State where
  current_layer_input_shape : Option Shape
deriving DecidableEq

/-- A numpy array: its shape and its entries, indexed by multi-indices. -/
structure NDArray (R : Type) where
  shape : Shape
  entry : List Nat → R

/-- Modelled from the spec: `Update` (`neglnn/optimizers/optimizer.py`, not
under `src/`) is the (parameter, gradient) pair recorded on an optimizer;
`layer.py` constructs it as `Update(parameter, gradient)`. -/
structure Update (R : Type) where
  parameter : NDArray R
  gradient : NDArray R

/-- Modelled from the spec: the optimizer contract of §4.4
(`neglnn/optimizers/optimizer.py`, not under `src/`).  An optimizer
instance is a value of an abstract internal state type `σ`; each method is
a state transformer (or, for `should_optimize`, a pure predicate). -/
structure OptimizerSpec (σ R : Type) where
  on_state : State → σ → σ
  on_target_shape : Shape → σ → σ
  record : Update R → σ → σ
  should_optimize : σ → Bool
  optimize : σ → σ

/-- One observable call performed by `layer.py` on the optimizer side.
The `Nat` identifies the optimizer by its position in the layer's
optimizer list (equivalently, by the index of the `provider()` call that
created it). -/
inductive Event (R : Type) where
  | providerCall (i : Nat)
  | onState (i : Nat) (s : State)
  | onTargetShape (i : Nat) (shape : Shape)
  | recordCall (i : Nat) (u : Update R)
  | shouldOptimizeRes (i : Nat) (b : Bool)
  | optimizeCall (i : Nat)

/-- Recognizer for `provider()` call events. -/
def Event.isProviderCall {R : Type} : Event R → Bool
  | Event.providerCall _ => true
  | _ => false

/-- The `BackwardState` dataclass of `layer.py`: the input gradient and the
per-parameter gradients. -/
structure BackwardState (R : Type) where
  input_gradient : NDArray R
  parameter_gradients : List (NDArray R)

/-- Constructing `BackwardState(g)` with the dataclass default
`parameter_gradients: tuple[Array, ...] = field(default_factory=tuple)`. -/
def BackwardState.ofInputGradient {R : Type} (g : NDArray R) : BackwardState R :=
  { input_gradient := g, parameter_gradients := [] }

/-- A `Layer` instance.  `input_shape`, `output_shape` and `trainable` are
the attributes set by `Layer.__init__`.  `state` is the shared state
attached by the `Stateful` mixin's `on_state` (not under `src/`; modelled
as already attached).  `params` is the concrete subclass's `parameters()`
override (a pure accessor, per the spec's idempotence property).
`optimizers` is `none` while the `self.optimizers` attribute does not
exist, and `some os` once `on_optimizer` has created it. -/
structure Layer (σ R : Type) where
  input_shape : Option Shape
  output_shape : Option Shape
  trainable : Bool
  state : State
  params : List (NDArray R)
  optimizers : Option (List σ)

/-- `Layer.__init__`: stores `input_shape`, `output_shape`, `trainable`
(the Python defaults are `None`, `None`, `False`).  It does not create the
`optimizers` attribute, so `optimizers` is `none`.  `st` and `ps` are the
model parameters described on `Layer` (attached state, subclass
parameter override), not `__init__` arguments. -/
def Layer.init {σ R : Type} (st : State) (ps : List (NDArray R))
    (input_shape : Option Shape) (output_shape : Option Shape)
    (trainable : Bool) : Layer σ R :=
  { input_shape := input_shape
    output_shape := output_shape
    trainable := trainable
    state := st
    params := ps
    optimizers := none }

/-- Base-class body of `Layer.on_initializer`: `raise NotImplementedError`
whatever the argument is. -/
def Layer.on_initializer {σ R A : Type} (_self : Layer σ R) (_initializer : A) :
    Except PyError Unit :=
  Except.error PyError.notImplementedError

/-- Base-class body of `Layer.forward`: `raise NotImplementedError`. -/
def Layer.forward {σ R : Type} (_self : Layer σ R) (_input : NDArray R) :
    Except PyError (NDArray R) :=
  Except.error PyError.notImplementedError

/-- Base-class body of `Layer.backward`: `raise NotImplementedError`. -/
def Layer.backward {σ R : Type} (_self : Layer σ R) (_output_gradient : NDArray R) :
    Except PyError (BackwardState R) :=
  Except.error PyError.notImplementedError

/-- Base-class body of `Layer.parameters`: `raise NotImplementedError`. -/
def Layer.parameters {σ R : Type} (_self : Layer σ R) :
    Except PyError (List (NDArray R)) :=
  Except.error PyError.notImplementedError

/-- The optimizer built in one iteration of `on_optimizer`'s loop for the
parameter `p`, when the `provider()` call is the `i`-th one:
`provider()`, then `on_state(self.state)`, then
`on_target_shape(parameter.shape)`. -/
def mkBoundOptimizer {σ R : Type} (spec : OptimizerSpec σ R) (provider : Nat → σ)
    (st : State) (i : Nat) (p : NDArray R) : σ :=
  spec.on_target_shape p.shape (spec.on_state st (provider i))

/-- The loop of `Layer.on_optimizer`: for each parameter, obtain a fresh
optimizer from `provider`, attach the state, bind the target shape, and
append; `n` counts the `provider()` calls made so far.  Returns the list
of appended optimizers and the trace of calls. -/
def onOptimizerStep {σ R : Type} (spec : OptimizerSpec σ R) (provider : Nat → σ)
    (st : State) : List (NDArray R) → Nat → List σ × List (Event R)
  | [], _ => ([], [])
  | p :: ps, n =>
    let o0 := provider n
    let o1 := spec.on_state st o0
    let o2 := spec.on_target_shape p.shape o1
    let rest := onOptimizerStep spec provider st ps (n + 1)
    (o2 :: rest.1,
      Event.providerCall n :: Event.onState n st :: Event.onTargetShape n p.shape
        :: rest.2)

/-- `Layer.on_optimizer`: sets `self.optimizers = []`, then runs the loop
over `self.parameters()`.  Returns the updated layer and the trace. -/
def Layer.on_optimizer {σ R : Type} (spec : OptimizerSpec σ R) (provider : Nat → σ)
    (L : Layer σ R) : Layer σ R × List (Event R) :=
  ({ L with optimizers := some (onOptimizerStep spec provider L.state L.params 0).1 },
    (onOptimizerStep spec provider L.state L.params 0).2)

/-- The optimizer state after one iteration of `optimize`'s loop body:
`record(Update(parameter, gradient))`, then `optimize()` exactly when
`should_optimize()` holds on the recorded state. -/
def updatedOptimizer {σ R : Type} (spec : OptimizerSpec σ R) (o : σ)
    (p g : NDArray R) : σ :=
  let o1 := spec.record (Update.mk p g) o
  if spec.should_optimize o1 then spec.optimize o1 else o1

/-- The trace of one iteration of `optimize`'s loop body on the `i`-th
triple: the `record` call, the `should_optimize` query and its result,
and the `optimize` call exactly when that result is `true`. -/
def tripleTrace {σ R : Type} (spec : OptimizerSpec σ R) (i : Nat) (o : σ)
    (p g : NDArray R) : List (Event R) :=
  let o1 := spec.record (Update.mk p g) o
  Event.recordCall i (Update.mk p g)
    :: Event.shouldOptimizeRes i (spec.should_optimize o1)
    :: (if spec.should_optimize o1 then [Event.optimizeCall i] else [])

/-- The loop of `Layer.optimize`: `zip` truncates at the shortest of the
three sequences, so the loop stops as soon as one list is exhausted,
leaving the remaining optimizers in place unchanged; `i` is the position
of the current triple.  Returns the full optimizer list (processed
prefix updated, suffix untouched) and the trace. -/
def optimizeStep {σ R : Type} (spec : OptimizerSpec σ R) :
    List σ → List (NDArray R) → List (NDArray R) → Nat → List σ × List (Event R)
  | [], _, _, _ => ([], [])
  | o :: os, ps, gs, i =>
    match ps, gs with
    | p :: ps, g :: gs =>
      let o1 := spec.record (Update.mk p g) o
      let b := spec.should_optimize o1
      let o2 := if b then spec.optimize o1 else o1
      let rest := optimizeStep spec os ps gs (i + 1)
      (o2 :: rest.1,
        Event.recordCall i (Update.mk p g) :: Event.shouldOptimizeRes i b
          :: (if b then Event.optimizeCall i :: rest.2 else rest.2))
    | _, _ => (o :: os, [])

/-- `Layer.optimize`: reads `self.optimizers` (an `AttributeError` if
`on_optimizer` never created it), then iterates over
`zip(self.optimizers, self.parameters(), gradients)`. -/
def Layer.optimize {σ R : Type} (spec : OptimizerSpec σ R) (L : Layer σ R)
    (gradients : List (NDArray R)) :
    Except PyError (Layer σ R × List (Event R)) :=
  match L.optimizers with
  | none => Except.error (PyError.attributeError PyAttr.optimizers)
  | some os =>
    Except.ok
      ({ L with optimizers := some (optimizeStep spec os L.params gradients 0).1 },
        (optimizeStep spec os L.params gradients 0).2)

/-- Modelled from the spec: the `Initializer` base class
(`neglnn/initializers/initializer.py`, not under `src/`) is `Stateful`: an
instance carries the shared state attached via `on_state`. -/
structure Initializer where
  state : State

/-- `Xavier` adds no data of its own to `Initializer`. -/
abbrev Xavier := Initializer

/-- `Xavier.get`: reads `self.state.current_layer_input_shape` (an
`AttributeError`-like failure is modelled for the unset case, the spec's
open question), computes `input_neurons` as `np.prod` of that shape, and
returns `np.random.randn(*shape) * np.sqrt(1 / input_neurons)`.  The
normal draws of `np.random.randn` are determinized as the oracle `randn`
from multi-indices to scalars, and `np.sqrt` is the parameter `sqrt`
(instantiated with `Real.sqrt` in the theorems). -/
def Xavier.get {R : Type} [Field R] (sqrt : R → R) (randn : List Nat → R)
    (self : Xavier) (shape : Shape) : Except PyError (NDArray R) :=
  match self.state.current_layer_input_shape with
  | none => Except.error (PyError.attributeError PyAttr.current_layer_input_shape)
  | some ishape =>
    let input_neurons : R := (ishape.prod : R)
    Except.ok (NDArray.mk shape (fun ix => randn ix * sqrt (1 / input_neurons)))

/-! ### Concrete instances used by the check theorems -/

/-- A concrete optimizer model (internal state: a counter). -/
def specW : OptimizerSpec Nat Int where
  on_state := fun _ o => o
  on_target_shape := fun sh o => o + sh.length
  record := fun _ o => o + 1
  should_optimize := fun o => o % 2 == 0
  optimize := fun o => o * 10

/-- A concrete provider: the `i`-th fresh instance starts at `100 * i`. -/
def providerW : Nat → Nat := fun i => 100 * i

/-- A concrete 2×2 parameter array. -/
def arrW1 : NDArray Int := NDArray.mk [2, 2] (fun _ => 0)

/-- A concrete length-3 parameter array. -/
def arrW2 : NDArray Int := NDArray.mk [3] (fun _ => 1)

/-- A concrete 2×2 gradient array. -/
def gradW1 : NDArray Int := NDArray.mk [2, 2] (fun _ => 2)

/-- A concrete length-3 gradient array. -/
def gradW2 : NDArray Int := NDArray.mk [3] (fun _ => 3)

/-- A concrete shared state. -/
def stW : State := State.mk (some [4])

/-- A concrete trainable layer before optimizer attachment. -/
def layerW : Layer Nat Int := Layer.init stW [arrW1, arrW2] none none true

/-- A concrete trainable layer after optimizer attachment: two parameters,
two bound optimizers. -/
def layerAttachedW : Layer Nat Int :=
  { input_shape := none
    output_shape := none
    trainable := true
    state := stW
    params := [arrW1, arrW2]
    optimizers := some [5, 6] }

/-! ### Closed forms of the two loops -/

/-- The loop of `on_optimizer` appends exactly one optimizer per parameter. -/
theorem onOptimizerStep_fst_length {σ R : Type} (spec : OptimizerSpec σ R)
    (provider : Nat → σ) (st : State) (ps : List (NDArray R)) (n : Nat) :
    (onOptimizerStep spec provider st ps n).1.length = ps.length := by
  induction ps generalizing n with
  | nil => rfl
  | cons p ps ih => simp [onOptimizerStep, ih]

/-- The optimizer at position `i` of the list built by `on_optimizer`'s
loop is the one obtained from the `(n + i)`-th `provider()` call and bound
to the `i`-th parameter. -/
theorem onOptimizerStep_fst_getElem? {σ R : Type} (spec : OptimizerSpec σ R)
    (provider : Nat → σ) (st : State) (ps : List (NDArray R)) (n i : Nat) :
    (onOptimizerStep spec provider st ps n).1[i]? =
      (ps[i]?).map (mkBoundOptimizer spec provider st (n + i)) := by
  induction ps generalizing n i with
  | nil => simp [onOptimizerStep]
  | cons p ps ih =>
    cases i with
    | zero => simp [onOptimizerStep, mkBoundOptimizer]
    | succ j =>
      have harith : n + 1 + j = n + (j + 1) := by omega
      simp only [onOptimizerStep, List.getElem?_cons_succ, ih, harith]

/-- The trace of `on_optimizer`'s loop: per parameter, in order, the
`provider()` call, then `on_state`, then `on_target_shape` with that
parameter's shape. -/
theorem onOptimizerStep_snd {σ R : Type} (spec : OptimizerSpec σ R)
    (provider : Nat → σ) (st : State) (ps : List (NDArray R)) (n : Nat) :
    (onOptimizerStep spec provider st ps n).2 =
      (List.enumFrom n ps).flatMap (fun ip =>
        [Event.providerCall ip.1, Event.onState ip.1 st,
         Event.onTargetShape ip.1 ip.2.shape]) := by
  induction ps generalizing n with
  | nil => rfl
  | cons p ps ih => simp [onOptimizerStep, List.enumFrom, ih]

/-- The loop of `on_optimizer` calls `provider()` once per parameter. -/
theorem onOptimizerStep_countP_provider {σ R : Type} (spec : OptimizerSpec σ R)
    (provider : Nat → σ) (st : State) (ps : List (NDArray R)) (n : Nat) :
    (onOptimizerStep spec provider st ps n).2.countP Event.isProviderCall
      = ps.length := by
  induction ps generalizing n with
  | nil => rfl
  | cons p ps ih =>
    simp [onOptimizerStep, List.countP_cons, Event.isProviderCall, ih]

/-- Splitting an `if` that prepends to a list into an `if`-block append. -/
theorem cons_if_append {α : Type} (b : Bool) (e : α) (T : List α) :
    (if b then e :: T else T) = (if b then [e] else []) ++ T := by
  cases b <;> simp

/-- Closed form of the optimizer list after `optimize`'s loop: the zipped
prefix is updated triple-wise, the optimizers beyond the zipped length are
returned untouched. -/
theorem optimizeStep_fst {σ R : Type} (spec : OptimizerSpec σ R) (os : List σ)
    (ps gs : List (NDArray R)) (i : Nat) :
    (optimizeStep spec os ps gs i).1 =
      ((os.zip (ps.zip gs)).map fun x => updatedOptimizer spec x.1 x.2.1 x.2.2)
        ++ os.drop (os.zip (ps.zip gs)).length := by
  induction os generalizing ps gs i with
  | nil => rfl
  | cons o os ih =>
    cases ps with
    | nil => rfl
    | cons p ps =>
      cases gs with
      | nil => rfl
      | cons g gs =>
        show (updatedOptimizer spec o p g :: (optimizeStep spec os ps gs (i + 1)).1) = _
        rw [ih]
        simp [List.zip_cons_cons, List.drop_succ_cons]

/-- The loop of `optimize` keeps the optimizer list's length. -/
theorem optimizeStep_fst_length {σ R : Type} (spec : OptimizerSpec σ R)
    (os : List σ) (ps gs : List (NDArray R)) (i : Nat) :
    (optimizeStep spec os ps gs i).1.length = os.length := by
  induction os generalizing ps gs i with
  | nil => rfl
  | cons o os ih =>
    cases ps with
    | nil => rfl
    | cons p ps =>
      cases gs with
      | nil => rfl
      | cons g gs =>
        show ((if spec.should_optimize (spec.record (Update.mk p g) o) then _ else _)
            :: (optimizeStep spec os ps gs (i + 1)).1).length = _
        rw [List.length_cons, List.length_cons, ih]

/-- Closed form of the trace of `optimize`'s loop: the per-triple blocks
(`record`, then the readiness query, then the conditional `optimize`
call), concatenated in triple order. -/
theorem optimizeStep_snd {σ R : Type} (spec : OptimizerSpec σ R) (os : List σ)
    (ps gs : List (NDArray R)) (i : Nat) :
    (optimizeStep spec os ps gs i).2 =
      (List.enumFrom i (os.zip (ps.zip gs))).flatMap
        (fun x => tripleTrace spec x.1 x.2.1 x.2.2.1 x.2.2.2) := by
  induction os generalizing ps gs i with
  | nil => rfl
  | cons o os ih =>
    cases ps with
    | nil => rfl
    | cons p ps =>
      cases gs with
      | nil => rfl
      | cons g gs =>
        show (Event.recordCall i (Update.mk p g)
            :: Event.shouldOptimizeRes i (spec.should_optimize (spec.record (Update.mk p g) o))
            :: (if spec.should_optimize (spec.record (Update.mk p g) o)
                then Event.optimizeCall i :: (optimizeStep spec os ps gs (i + 1)).2
                else (optimizeStep spec os ps gs (i + 1)).2)) = _
        rw [ih, List.zip_cons_cons, List.zip_cons_cons, List.enumFrom_cons,
          List.flatMap_cons, cons_if_append]
        rfl

/-- Unfolding of `Layer.optimize` when the `optimizers` attribute exists. -/
theorem Layer.optimize_some {σ R : Type} (spec : OptimizerSpec σ R)
    (L : Layer σ R) (os : List σ) (gradients : List (NDArray R))
    (hos : L.optimizers = some os) :
    L.optimize spec gradients =
      Except.ok
        ({ L with optimizers := some (optimizeStep spec os L.params gradients 0).1 },
          (optimizeStep spec os L.params gradients 0).2) := by
  unfold Layer.optimize
  rw [hos]

/-! ### The claims -/

/-- C1: immediately after `on_optimizer(provider)` completes on a trainable
layer, the layer's optimizer list exists and has exactly one optimizer per
element of `parameters()` (equal lengths), and the `i`-th optimizer in the
list is the one built for the `i`-th parameter: the `i`-th fresh
`provider()` instance, given the shared state and bound to that
parameter's shape.  (`parameters()` is modelled as a pure accessor, so its
order is stable across repeated calls.) -/
theorem C1_one_optimizer_per_parameter {σ R : Type} (spec : OptimizerSpec σ R)
    (provider : Nat → σ) (L : Layer σ R) (_hT : L.trainable = true) :
    ∃ os : List σ, ((L.on_optimizer spec provider).1).optimizers = some os ∧
      os.length = L.params.length ∧
      ∀ i : Nat, os[i]? =
        (L.params[i]?).map (mkBoundOptimizer spec provider L.state i) := by
  refine ⟨(onOptimizerStep spec provider L.state L.params 0).1, rfl,
    onOptimizerStep_fst_length spec provider L.state L.params 0, fun i => ?_⟩
  simpa using onOptimizerStep_fst_getElem? spec provider L.state L.params 0 i

/-- C1 check on a concrete trainable layer with two parameters. -/
theorem C1_one_optimizer_per_parameter_witness :
    ∃ os : List Nat, ((layerW.on_optimizer specW providerW).1).optimizers = some os ∧
      os.length = layerW.params.length ∧
      ∀ i : Nat, os[i]? =
        (layerW.params[i]?).map (mkBoundOptimizer specW providerW layerW.state i) :=
  C1_one_optimizer_per_parameter specW providerW layerW rfl

/-- C2: with optimizers attached and a gradients tuple whose length equals
the number of parameters, `optimize` processes the
(optimizer, parameter, gradient) triples in order; for each triple it
first records `Update(parameter, gradient)` on the optimizer and then
calls `optimize()` on it if and only if `should_optimize()` returns true
on the post-record state (this is what `tripleTrace` and
`updatedOptimizer` say); the new optimizer list is the triple-wise
update. -/
theorem C2_record_then_apply_iff_ready {σ R : Type} (spec : OptimizerSpec σ R)
    (L : Layer σ R) (os : List σ) (gradients : List (NDArray R))
    (hos : L.optimizers = some os) (hlen : os.length = L.params.length)
    (hg : gradients.length = L.params.length) :
    L.optimize spec gradients =
      Except.ok
        ({ L with optimizers := some ((os.zip (L.params.zip gradients)).map
            fun x => updatedOptimizer spec x.1 x.2.1 x.2.2) },
          (List.enumFrom 0 (os.zip (L.params.zip gradients))).flatMap
            (fun x => tripleTrace spec x.1 x.2.1 x.2.2.1 x.2.2.2)) := by
  have hk : (os.zip (L.params.zip gradients)).length = os.length := by
    simp only [List.length_zip]
    omega
  rw [Layer.optimize_some spec L os gradients hos, optimizeStep_fst,
    optimizeStep_snd, hk, List.drop_length, List.append_nil]

/-- C2 check on a concrete layer with two attached optimizers and two
gradients. -/
theorem C2_record_then_apply_iff_ready_witness :
    layerAttachedW.optimize specW [gradW1, gradW2] =
      Except.ok
        ({ layerAttachedW with optimizers := some ((([5, 6] : List Nat).zip (layerAttachedW.params.zip [gradW1, gradW2])).map fun x => updatedOptimizer specW x.1 x.2.1 x.2.2) },
          (List.enumFrom 0 (([5, 6] : List Nat).zip
              (layerAttachedW.params.zip [gradW1, gradW2]))).flatMap
            (fun x => tripleTrace specW x.1 x.2.1 x.2.2.1 x.2.2.2)) :=
  C2_record_then_apply_iff_ready specW layerAttachedW [5, 6] [gradW1, gradW2]
    rfl rfl rfl

/-- C3: `on_optimizer(provider)` performs, for each parameter of
`parameters()` in order: one fresh `provider()` call (so the number of
`provider()` calls equals the number of parameters), then `on_state` with
the layer's shared state, then `on_target_shape` with that parameter's
shape — `on_state` before `on_target_shape` on each optimizer — and
appends the resulting optimizer to the layer's optimizer list. -/
theorem C3_on_optimizer_call_sequence {σ R : Type} (spec : OptimizerSpec σ R)
    (provider : Nat → σ) (L : Layer σ R) :
    (L.on_optimizer spec provider).2 =
      (List.enumFrom 0 L.params).flatMap (fun ip =>
        [Event.providerCall ip.1, Event.onState ip.1 L.state,
         Event.onTargetShape ip.1 ip.2.shape]) ∧
    (L.on_optimizer spec provider).2.countP Event.isProviderCall
      = L.params.length ∧
    ∃ os : List σ, ((L.on_optimizer spec provider).1).optimizers = some os ∧
      os.length = L.params.length :=
  ⟨onOptimizerStep_snd spec provider L.state L.params 0,
   onOptimizerStep_countP_provider spec provider L.state L.params 0,
   (onOptimizerStep spec provider L.state L.params 0).1, rfl,
   onOptimizerStep_fst_length spec provider L.state L.params 0⟩

/-- C4 counterexample: at a freshly constructed layer (here a trainable
one with one parameter) the `optimizers` attribute does not exist at all
(`none` in the model), so the layer does not yet have a (empty) list of
bound optimizers. -/
theorem C4_counterexample_no_list_at_construction :
    ¬ ∃ os : List Nat,
      (Layer.init stW [arrW1] none none true : Layer Nat Int).optimizers
        = some os := by
  rintro ⟨os, h⟩
  exact Option.noConfusion h

/-- C4 (amended): from construction until `on_optimizer` runs the layer
has no optimizer list at all (the attribute is missing); `on_optimizer`
then creates the list and populates it with one optimizer per trainable
parameter. -/
theorem C4_optimizers_absent_until_attachment {σ R : Type} (st : State)
    (ps : List (NDArray R)) (ish osh : Option Shape) (tb : Bool)
    (spec : OptimizerSpec σ R) (provider : Nat → σ) :
    (Layer.init st ps ish osh tb : Layer σ R).optimizers = none ∧
    ∃ os : List σ,
      (((Layer.init st ps ish osh tb : Layer σ R)).on_optimizer spec provider).1.optimizers
        = some os ∧ os.length = ps.length :=
  ⟨rfl, (onOptimizerStep spec provider st ps 0).1, rfl,
    onOptimizerStep_fst_length spec provider st ps 0⟩

/-- C5: calling `optimize(gradients)` on a layer on which `on_optimizer`
has never run fails immediately: `self.optimizers` was never created, so
the attribute access raises `AttributeError` naming the missing
`optimizers` attribute (the very attribute the `on_optimizer` phase
installs), before any numeric work and instead of silently doing
nothing. -/
theorem C5_optimize_before_attachment_raises {σ R : Type}
    (spec : OptimizerSpec σ R) (st : State) (ps : List (NDArray R))
    (ish osh : Option Shape) (tb : Bool) (gradients : List (NDArray R)) :
    Layer.optimize spec (Layer.init st ps ish osh tb : Layer σ R) gradients =
      Except.error (PyError.attributeError PyAttr.optimizers) := rfl

/-- C6: on a `Layer` whose concrete subclass overrides nothing, each of
the base-abstraction methods `on_initializer`, `forward`, `backward` and
`parameters` raises `NotImplementedError` for every input, and never
returns a value. -/
theorem C6_base_methods_raise {σ R A : Type} (L : Layer σ R) (x : A)
    (input output_gradient : NDArray R) :
    L.on_initializer x = Except.error PyError.notImplementedError ∧
    L.forward input = Except.error PyError.notImplementedError ∧
    L.backward output_gradient = Except.error PyError.notImplementedError ∧
    L.parameters = Except.error PyError.notImplementedError :=
  ⟨rfl, rfl, rfl, rfl⟩

/-- C7: for every target shape of positive dimensions and every shared
state whose `current_layer_input_shape` is set, `Xavier.get` returns an
array of exactly the requested shape whose entries are the standard-normal
draws multiplied by `Real.sqrt (1 / fan_in)`, where `fan_in` is the
product of the dimensions of the state's `current_layer_input_shape`. -/
theorem C7_xavier_fan_in_scaling (randn : List Nat → ℝ) (xv : Xavier)
    (ishape shape : Shape)
    (h1 : xv.state.current_layer_input_shape = some ishape)
    (_h2 : ∀ d ∈ shape, 0 < d) :
    ∃ arr : NDArray ℝ,
      Xavier.get Real.sqrt randn xv shape = Except.ok arr ∧
      arr.shape = shape ∧
      ∀ ix : List Nat,
        arr.entry ix = randn ix * Real.sqrt (1 / (ishape.prod : ℝ)) := by
  refine ⟨NDArray.mk shape (fun ix => randn ix * Real.sqrt (1 / (ishape.prod : ℝ))),
    ?_, rfl, fun ix => rfl⟩
  unfold Xavier.get
  rw [h1]

/-- C7 check with `current_layer_input_shape = (784,)` and target shape
`(2, 2)`. -/
theorem C7_xavier_fan_in_scaling_witness :
    ∃ arr : NDArray ℝ,
      Xavier.get Real.sqrt (fun _ => 1) (Initializer.mk (State.mk (some [784]))) [2, 2]
        = Except.ok arr ∧
      arr.shape = [2, 2] ∧
      ∀ ix : List Nat,
        arr.entry ix = (fun _ : List Nat => (1 : ℝ)) ix
          * Real.sqrt (1 / (([784] : Shape).prod : ℝ)) :=
  C7_xavier_fan_in_scaling (fun _ => 1) (Initializer.mk (State.mk (some [784])))
    [784] [2, 2] rfl (by decide)

/-- C8: with optimizers attached, a gradients tuple shorter or longer than
the number of parameters (or than the optimizer list) raises no error:
`optimize` succeeds, processes exactly the first
`min(len(optimizers), len(parameters()), len(gradients))` triples (the
zipped prefix, whose trace is the concatenation of the per-triple blocks),
and leaves every optimizer at or beyond that index untouched. -/
theorem C8_short_zip_silent_truncation {σ R : Type} (spec : OptimizerSpec σ R)
    (L : Layer σ R) (os : List σ) (gradients : List (NDArray R))
    (hos : L.optimizers = some os) :
    ∃ os2 : List σ, ∃ tr : List (Event R),
      L.optimize spec gradients
        = Except.ok ({ L with optimizers := some os2 }, tr) ∧
      os2.length = os.length ∧
      (∀ j : Nat, min os.length (min L.params.length gradients.length) ≤ j →
        os2[j]? = os[j]?) ∧
      tr = (List.enumFrom 0 (os.zip (L.params.zip gradients))).flatMap
        (fun x => tripleTrace spec x.1 x.2.1 x.2.2.1 x.2.2.2) ∧
      (os.zip (L.params.zip gradients)).length
        = min os.length (min L.params.length gradients.length) := by
  have hk : (os.zip (L.params.zip gradients)).length
      = min os.length (min L.params.length gradients.length) := by
    simp [List.length_zip]
  refine ⟨(optimizeStep spec os L.params gradients 0).1,
    (optimizeStep spec os L.params gradients 0).2,
    Layer.optimize_some spec L os gradients hos,
    optimizeStep_fst_length spec os L.params gradients 0,
    fun j hj => ?_, optimizeStep_snd spec os L.params gradients 0, hk⟩
  have hle : ((os.zip (L.params.zip gradients)).map
      fun x => updatedOptimizer spec x.1 x.2.1 x.2.2).length ≤ j := by
    rw [List.length_map, hk]
    exact hj
  rw [optimizeStep_fst, List.getElem?_append_right hle, List.length_map,
    List.getElem?_drop]
  congr 1
  rw [hk]
  omega

/-- C8 check: two attached optimizers, two parameters, one gradient. -/
theorem C8_short_zip_silent_truncation_witness :
    ∃ os2 : List Nat, ∃ tr : List (Event Int),
      layerAttachedW.optimize specW [gradW1]
        = Except.ok ({ layerAttachedW with optimizers := some os2 }, tr) ∧
      os2.length = ([5, 6] : List Nat).length ∧
      (∀ j : Nat, min ([5, 6] : List Nat).length
          (min layerAttachedW.params.length
            ([gradW1] : List (NDArray Int)).length) ≤ j →
        os2[j]? = ([5, 6] : List Nat)[j]?) ∧
      tr = (List.enumFrom 0 (([5, 6] : List Nat).zip
          (layerAttachedW.params.zip [gradW1]))).flatMap
        (fun x => tripleTrace specW x.1 x.2.1 x.2.2.1 x.2.2.2) ∧
      (([5, 6] : List Nat).zip (layerAttachedW.params.zip [gradW1])).length
        = min ([5, 6] : List Nat).length
            (min layerAttachedW.params.length
              ([gradW1] : List (NDArray Int)).length) :=
  C8_short_zip_silent_truncation specW layerAttachedW [5, 6] [gradW1] rfl

/-- C9: constructing `BackwardState(g)` without supplying
`parameter_gradients` yields `input_gradient = g` and the empty tuple of
parameter gradients. -/
theorem C9_backward_state_default_empty {R : Type} (g : NDArray R) :
    (BackwardState.ofInputGradient g).input_gradient = g ∧
    (BackwardState.ofInputGradient g).parameter_gradients = [] :=
  ⟨rfl, rfl⟩

/-- C10: constructing a `Layer` with the default arguments yields
`trainable = False`, `input_shape = None`, `output_shape = None`; when
arguments are supplied, the three attributes store exactly the supplied
values. -/
theorem C10_init_defaults_and_storage {σ R : Type} (st : State)
    (ps : List (NDArray R)) (ish osh : Option Shape) (tb : Bool) :
    ((Layer.init st ps none none false : Layer σ R).trainable = false ∧
      (Layer.init st ps none none false : Layer σ R).input_shape = none ∧
      (Layer.init st ps none none false : Layer σ R).output_shape = none) ∧
    ((Layer.init st ps ish osh tb : Layer σ R).input_shape = ish ∧
      (Layer.init st ps ish osh tb : Layer σ R).output_shape = osh ∧
      (Layer.init st ps ish osh tb : Layer σ R).trainable = tb) :=
  ⟨⟨rfl, rfl, rfl⟩, rfl, rfl, rfl⟩
